import Mathlib

/-!
Verification development for the mvauth2 community-auth service.

The definitions below are a shallow embedding of the Python source:

* `packages/api/models/user.py` — role enums and permission resolution;
* `packages/api/services/jwt_service.py` — token issue and validation;
* `packages/api/routes/auth.py` — login and refresh flows;
* `packages/api/main_simple.py` — admin role-assignment endpoint.

Python runtime behaviour that matters here is made explicit: attribute
access on an enum class that has no member of that name raises
`AttributeError` (modelled by `UserRole.attr` returning an error), a dict
subscript on a missing key raises `KeyError`, and fallible code returns
`Except`. Clock reads (`datetime.utcnow`) are passed in as an explicit
`now` argument measured in whole seconds.
-/

deriving instance DecidableEq for Except

namespace MVAuth

/-- Python-level exceptions that the embedded code can raise. -/
inductive PyError where
  | attributeError (name : String)
  | keyError (key : String)
  deriving DecidableEq, Repr

/-- The `UserRole` enum of `models/user.py` (system-wide roles plus the
legacy community roles). These are exactly the declared members. -/
inductive UserRole where
  | USER
  | ADMIN
  | SUPER_ADMIN
  | HOMEOWNER
  | GUEST
  | RESIDENT
  | STAFF
  deriving DecidableEq, Repr

/-- The string value of each `UserRole` member, as declared in the enum. -/
def UserRole.value : UserRole → String
  | .USER => "USER"
  | .ADMIN => "ADMIN"
  | .SUPER_ADMIN => "SUPER_ADMIN"
  | .HOMEOWNER => "homeowner"
  | .GUEST => "guest"
  | .RESIDENT => "resident"
  | .STAFF => "staff"

/-- Attribute access `UserRole.<name>` in Python: returns the member when
it exists and raises `AttributeError` otherwise. The source of
`models/user.py` also mentions `UserRole.ARC_ADMIN`, `UserRole.ARC_REVIEWER`,
`UserRole.QR_ADMIN` and `UserRole.QR_SCANNER`; those names are members of
the separate `AppRole` enum, not of `UserRole`, so looking them up on
`UserRole` raises. -/
def UserRole.attr : String → Except PyError UserRole
  | "USER" => .ok .USER
  | "ADMIN" => .ok .ADMIN
  | "SUPER_ADMIN" => .ok .SUPER_ADMIN
  | "HOMEOWNER" => .ok .HOMEOWNER
  | "GUEST" => .ok .GUEST
  | "RESIDENT" => .ok .RESIDENT
  | "STAFF" => .ok .STAFF
  | n => .error (.attributeError n)

/-- One row of the `user_app_roles` table (class `UserAppRole`). -/
structure UserAppRole where
  id : Int
  user_id : Int
  app_name : String
  role : String
  deriving DecidableEq, Repr

/-- One row of the `community_users` table (class `CommunityUser`), with
its `app_roles` relationship materialised as the list of related rows.
Timestamps irrelevant to the claims are carried as optional seconds. -/
structure CommunityUser where
  id : Int
  clerk_user_id : String
  email : String
  full_name : String
  unit_number : Option String
  phone_number : Option String
  role : UserRole
  is_active : Bool
  last_login : Option Int
  app_roles : List UserAppRole
  deriving DecidableEq, Repr

/-- `CommunityUser._get_arc_permissions`. Its first conditional evaluates
`UserRole.ARC_ADMIN`, its second `UserRole.ARC_REVIEWER`; neither name is
a `UserRole` member. -/
def CommunityUser.get_arc_permissions (self : CommunityUser) :
    Except PyError (List String) := do
  let base := ["access"]
  let arcAdmin ← UserRole.attr "ARC_ADMIN"
  if self.role = arcAdmin then
    return base ++ ["admin", "manage_applications", "assign_reviewers", "view_all"]
  else
    let arcReviewer ← UserRole.attr "ARC_REVIEWER"
    if self.role = arcReviewer then
      return base ++ ["review", "comment", "approve", "deny"]
    else if self.role = .HOMEOWNER ∨ self.role = .RESIDENT then
      return base ++ ["submit", "view_own"]
    else
      return ["guest"]

/-- `CommunityUser._get_qr_permissions`. Its first conditional evaluates
`UserRole.QR_ADMIN`, its second `UserRole.QR_SCANNER`; neither name is a
`UserRole` member. -/
def CommunityUser.get_qr_permissions (self : CommunityUser) :
    Except PyError (List String) := do
  let base := ["access"]
  let qrAdmin ← UserRole.attr "QR_ADMIN"
  if self.role = qrAdmin then
    return base ++ ["admin", "manage_gates", "view_logs", "manage_devices"]
  else
    let qrScanner ← UserRole.attr "QR_SCANNER"
    if self.role = qrScanner ∨ self.role = .STAFF then
      return base ++ ["scan", "validate", "open_gate"]
    else if self.role = .HOMEOWNER ∨ self.role = .RESIDENT then
      return base ++ ["resident_access"]
    else
      return ["guest"]

/-- `CommunityUser._get_community_permissions`. -/
def CommunityUser.get_community_permissions (self : CommunityUser) : List String :=
  let base := ["access"]
  if self.role = .SUPER_ADMIN ∨ self.role = .ADMIN then
    base ++ ["manage_users", "assign_roles", "view_all_logs"]
  else
    base ++ ["view_profile", "update_profile"]

/-- `CommunityUser._get_default_permissions`. -/
def CommunityUser.get_default_permissions (self : CommunityUser) : List String :=
  if self.role = .GUEST then
    ["guest"]
  else if self.role = .HOMEOWNER ∨ self.role = .RESIDENT then
    ["access", "user"]
  else
    ["access"]

/-- `CommunityUser.get_permissions_for_service`. -/
def CommunityUser.get_permissions_for_service (self : CommunityUser)
    (service_name : String) : Except PyError (List String) :=
  if self.role = .SUPER_ADMIN ∨ self.role = .ADMIN then
    .ok ["access", "admin", "manage_users", "view_logs", "super_admin"]
  else if service_name = "arc" then
    self.get_arc_permissions
  else if service_name = "qr_gate" then
    self.get_qr_permissions
  else if service_name = "community_auth" then
    .ok self.get_community_permissions
  else
    .ok self.get_default_permissions

/-- A JSON-style claim value as stored in a token payload dict. -/
inductive CVal where
  | s (v : String)
  | i (v : Int)
  | b (v : Bool)
  | null
  deriving DecidableEq, Repr

/-- `d.get(k)` on a payload dict: the first binding for `k`, if any. -/
def lookupClaim (payload : List (String × CVal)) (k : String) : Option CVal :=
  (payload.find? (fun kv => kv.1 = k)).map (fun kv => kv.2)

/-- The subset of `utils/config.py` `Settings` that the embedded code
reads. `admin_emails` is the parsed ADMIN_EMAILS list. -/
structure Settings where
  jwt_secret_key : String
  jwt_algorithm : String
  jwt_expire_minutes : Int
  admin_emails : List String
  deriving DecidableEq, Repr

/-- A signed token as produced by `jose.jwt.encode`: the claim payload
together with the signing key and algorithm that produced the signature. -/
structure Token where
  payload : List (String × CVal)
  key : String
  alg : String
  deriving DecidableEq, Repr

/-- `jose.jwt.encode(payload, key, algorithm)`. -/
def jwt_encode (payload : List (String × CVal)) (key : String) (alg : String) : Token :=
  ⟨payload, key, alg⟩

/-- Failure modes of `jose.jwt.decode`. -/
inductive JwtError where
  | expiredSignature
  | invalidToken
  deriving DecidableEq, Repr

/-- `jose.jwt.decode(token, key, algorithms, options=verify_exp)`: a bad
signature (key or algorithm mismatch) raises `JWTError`; otherwise, when
an integer `exp` claim is present and lies strictly in the past, it
raises `ExpiredSignatureError`; otherwise the payload is returned. The
jose library treats `exp = now` as still valid (`exp < now - leeway`
with zero leeway). -/
def jwt_decode (tok : Token) (key : String) (algorithms : List String)
    (now : Int) : Except JwtError (List (String × CVal)) :=
  if tok.key = key ∧ tok.alg ∈ algorithms then
    match lookupClaim tok.payload "exp" with
    | some (.i e) => if e < now then .error .expiredSignature else .ok tok.payload
    | _ => .ok tok.payload
  else
    .error .invalidToken

/-- `fastapi.HTTPException` as raised by the embedded services/routes. -/
structure HTTPError where
  status_code : Nat
  detail : String
  deriving DecidableEq, Repr

/-- An exception escaping a JWT service validator: either the
`fastapi.HTTPException` the code raises deliberately, or a Python-level
error raised while an except clause itself is being evaluated. The
source imports `from jose import jwt`, and python-jose defines no
`jwt.InvalidTokenError` (that name belongs to PyJWT), so whenever the
clause `except jwt.InvalidTokenError` is checked, the attribute lookup
raises `AttributeError`, which replaces the exception in flight. -/
inductive PyException where
  | http (e : HTTPError)
  | py (e : PyError)
  deriving DecidableEq, Repr

/-- The dict produced by `CommunityUser.to_dict` (the timestamp fields
not consumed by any embedded caller are omitted; `role` is the enum
value string). -/
structure UserDict where
  id : Int
  clerk_user_id : String
  email : String
  full_name : String
  unit_number : Option String
  phone_number : Option String
  role : String
  is_active : Bool
  app_roles : List (String × String)
  deriving DecidableEq, Repr

/-- `CommunityUser.to_dict`. -/
def CommunityUser.to_dict (self : CommunityUser) : UserDict :=
  { id := self.id
    clerk_user_id := self.clerk_user_id
    email := self.email
    full_name := self.full_name
    unit_number := self.unit_number
    phone_number := self.phone_number
    role := self.role.value
    is_active := self.is_active
    app_roles := self.app_roles.map (fun r => (r.app_name, r.role)) }

/-- An optional string embedded as a claim value (`None` becomes JSON null). -/
def optClaim : Option String → CVal
  | some v => .s v
  | none => .null

namespace JWTService

/-- The access-token payload dict built by
`JWTService.create_community_token` from the `to_dict` snapshot, with
`exp` at `now + jwt_expire_minutes` minutes. -/
def access_payload (st : Settings) (user_data : UserDict) (now : Int) :
    List (String × CVal) :=
  [ ("user_id", .i user_data.id)
  , ("clerk_user_id", .s user_data.clerk_user_id)
  , ("email", .s user_data.email)
  , ("full_name", .s user_data.full_name)
  , ("role", .s user_data.role)
  , ("unit_number", optClaim user_data.unit_number)
  , ("is_active", .b user_data.is_active)
  , ("iat", .i now)
  , ("exp", .i (now + st.jwt_expire_minutes * 60))
  , ("iss", .s "community-auth-service")
  , ("type", .s "community_access") ]

/-- `JWTService.create_community_token(user_data)`. -/
def create_community_token (st : Settings) (user_data : UserDict) (now : Int) : Token :=
  jwt_encode (access_payload st user_data now) st.jwt_secret_key st.jwt_algorithm

/-- `JWTService.validate_token(token)`: decode with signature and expiry
checks; no further checks on the payload. An expired token is mapped to
401 by the `except jwt.ExpiredSignatureError` clause. A bad signature
raises `jose.JWTError`, which that clause does not match; checking the
next clause then evaluates `jwt.InvalidTokenError`, a name python-jose
does not define, so `AttributeError` replaces the in-flight error and
escapes — the 401 Invalid token response written in the source is
unreachable. -/
def validate_token (st : Settings) (token : Token) (now : Int) :
    Except PyException (List (String × CVal)) :=
  match jwt_decode token st.jwt_secret_key [st.jwt_algorithm] now with
  | .ok payload => .ok payload
  | .error .expiredSignature => .error (.http ⟨401, "Token has expired"⟩)
  | .error .invalidToken => .error (.py (.attributeError "InvalidTokenError"))

/-- The refresh-token payload dict built by
`JWTService.create_refresh_token`, with a 30-day expiry. -/
def refresh_payload (user_id : Int) (now : Int) : List (String × CVal) :=
  [ ("user_id", .i user_id)
  , ("type", .s "refresh")
  , ("iat", .i now)
  , ("exp", .i (now + 30 * 86400))
  , ("iss", .s "community-auth-service") ]

/-- `JWTService.create_refresh_token(user_id)`. -/
def create_refresh_token (st : Settings) (user_id : Int) (now : Int) : Token :=
  jwt_encode (refresh_payload user_id now) st.jwt_secret_key st.jwt_algorithm

/-- `JWTService.validate_refresh_token(token)`: decode, then reject any
payload whose `type` claim is not the string `refresh` by raising
HTTPException inside the `try`. That exception does not match
`except jwt.ExpiredSignatureError`, and checking the next clause
evaluates `jwt.InvalidTokenError`, a name python-jose does not define:
the resulting `AttributeError` replaces the HTTPException, so the
wrong-type rejection escapes as `AttributeError`, not as the 401
Invalid token type response written in the source; a bad signature
(`jose.JWTError`) takes the same path. Only the success and expired
paths behave as written. -/
def validate_refresh_token (st : Settings) (token : Token) (now : Int) :
    Except PyException (List (String × CVal)) :=
  match jwt_decode token st.jwt_secret_key [st.jwt_algorithm] now with
  | .ok payload =>
      if lookupClaim payload "type" = some (.s "refresh") then
        .ok payload
      else
        .error (.py (.attributeError "InvalidTokenError"))
  | .error .expiredSignature => .error (.http ⟨401, "Refresh token has expired"⟩)
  | .error .invalidToken => .error (.py (.attributeError "InvalidTokenError"))

end JWTService

/-!
The store layer used by `routes/auth.py`. The route code constructs
`UserRepository(db)` and calls `get_by_clerk_id`, `create`,
`update_by_clerk_id`, `update_last_login` and `get_by_id`; the
`repositories/user_repository.py` present in this snapshot exposes a
different interface (`get_user_by_clerk_id` and friends), so the
implementation the routes run against is not in the tree. The methods
are therefore modelled from the spec. The user table is modelled as a
list of `CommunityUser` rows; the audit log written by
`log_user_action` is append-only and read by no embedded claim, so it
is left out of the modelled state.
-/

namespace UserRepository

/-- Modelled from the spec: `UserRepository.get_by_id`, absent from this
snapshot of `repositories/user_repository.py`; the spec describes the
refresh flow as look up live user by id. -/
def get_by_id (db : List CommunityUser) (user_id : Int) : Option CommunityUser :=
  db.find? (fun u => u.id = user_id)

/-- Modelled from the spec: `UserRepository.get_by_clerk_id`, absent from
this snapshot; the spec describes lookup by external subject id as the
primary match key. -/
def get_by_clerk_id (db : List CommunityUser) (clerk_user_id : String) :
    Option CommunityUser :=
  db.find? (fun u => u.clerk_user_id = clerk_user_id)

/-- Modelled from the spec: `UserRepository.create`, absent from this
snapshot; creates a new user row with the given fields, active, keyed by
a fresh surrogate id. -/
def create (db : List CommunityUser) (clerk_user_id : String) (email : String)
    (full_name : String) (phone_number : Option String) (role : UserRole) :
    List CommunityUser × CommunityUser :=
  let fresh_id : Int := (db.map (fun u => u.id)).foldr max 0 + 1
  let u : CommunityUser :=
    { id := fresh_id
      clerk_user_id := clerk_user_id
      email := email
      full_name := full_name
      unit_number := none
      phone_number := phone_number
      role := role
      is_active := true
      last_login := none
      app_roles := [] }
  (db ++ [u], u)

/-- Modelled from the spec: `UserRepository.update_by_clerk_id`, absent
from this snapshot; the spec says this path updates the mutable profile
fields (email, display name, phone) and nothing else. Returns the
updated row. -/
def update_by_clerk_id (db : List CommunityUser) (clerk_user_id : String)
    (email : String) (full_name : String) (phone_number : Option String) :
    List CommunityUser × Option CommunityUser :=
  let db2 := db.map (fun u =>
    if u.clerk_user_id = clerk_user_id then
      { u with email := email, full_name := full_name, phone_number := phone_number }
    else u)
  (db2, db2.find? (fun u => u.clerk_user_id = clerk_user_id))

/-- Modelled from the spec: `UserRepository.update_last_login`, absent
from this snapshot; sets the `last_login` timestamp. -/
def update_last_login (db : List CommunityUser) (clerk_user_id : String)
    (now : Int) : List CommunityUser :=
  db.map (fun u =>
    if u.clerk_user_id = clerk_user_id then { u with last_login := some now } else u)

end UserRepository

/-- The verified identity handed to the login route by
`clerk_service.verify_clerk_token` (an external collaborator). -/
structure ClerkUserData where
  clerk_user_id : String
  email : String
  full_name : String
  phone_number : Option String
  deriving DecidableEq, Repr

/-- The body of `LoginResponse` / the refresh response dict of
`routes/auth.py`. -/
structure LoginResponse where
  access_token : Token
  refresh_token : Token
  token_type : String
  user : UserDict
  expires_in : Int
  deriving DecidableEq, Repr

/-- `routes/auth.py` `login_with_clerk`, from the point where the Clerk
token has been verified: get-or-create the local user, stamp
`last_login`, and issue both tokens. Returns the updated user table
alongside the HTTP outcome. -/
def login_with_clerk (st : Settings) (db : List CommunityUser)
    (clerk_user_data : ClerkUserData) (now : Int) :
    List CommunityUser × Except HTTPError LoginResponse :=
  match UserRepository.get_by_clerk_id db clerk_user_data.clerk_user_id with
  | none =>
      let role := if clerk_user_data.email ∈ st.admin_emails then
          UserRole.SUPER_ADMIN else UserRole.HOMEOWNER
      let created := UserRepository.create db clerk_user_data.clerk_user_id
        clerk_user_data.email clerk_user_data.full_name
        clerk_user_data.phone_number role
      let db2 := UserRepository.update_last_login created.1
        clerk_user_data.clerk_user_id now
      let user_dict := created.2.to_dict
      (db2, .ok
        { access_token := JWTService.create_community_token st user_dict now
          refresh_token := JWTService.create_refresh_token st created.2.id now
          token_type := "bearer"
          user := user_dict
          expires_in := 60 * 24 * 7 * 60 })
  | some _ =>
      let updated := UserRepository.update_by_clerk_id db
        clerk_user_data.clerk_user_id clerk_user_data.email
        clerk_user_data.full_name clerk_user_data.phone_number
      match updated.2 with
      | none =>
          -- user.to_dict() on None raises; the generic except clause turns
          -- the failure into a 500 response
          (updated.1, .error ⟨500, "Login failed"⟩)
      | some user =>
          let db2 := UserRepository.update_last_login updated.1
            clerk_user_data.clerk_user_id now
          let user_dict := user.to_dict
          (db2, .ok
            { access_token := JWTService.create_community_token st user_dict now
              refresh_token := JWTService.create_refresh_token st user.id now
              token_type := "bearer"
              user := user_dict
              expires_in := 60 * 24 * 7 * 60 })

/-- `routes/auth.py` `refresh_token`: validate the refresh token, read
its `user_id` claim, look up the live user, reject missing or inactive
users with 401, otherwise issue a fresh access and refresh pair. An
HTTPException from the validator re-raises via `except HTTPException`,
while a Python-level error from the validator (its unreachable
`jwt.InvalidTokenError` clause) or a missing `user_id` claim
(`KeyError`) is caught by the generic except clause as a 500 response;
a non-integer claim value matches no integer-keyed row and yields the
401 branch. -/
def refresh_token_route (st : Settings) (db : List CommunityUser)
    (tok : Token) (now : Int) : Except HTTPError LoginResponse :=
  match JWTService.validate_refresh_token st tok now with
  | .error (.http e) => .error e
  | .error (.py _) => .error ⟨500, "Token refresh failed"⟩
  | .ok payload =>
      match lookupClaim payload "user_id" with
      | none => .error ⟨500, "Token refresh failed"⟩
      | some v =>
          let user? := match v with
            | .i user_id => UserRepository.get_by_id db user_id
            | _ => none
          match user? with
          | none => .error ⟨401, "User not found or inactive"⟩
          | some user =>
              if user.is_active then
                let user_dict := user.to_dict
                .ok
                  { access_token := JWTService.create_community_token st user_dict now
                    refresh_token := JWTService.create_refresh_token st user.id now
                    token_type := "bearer"
                    user := user_dict
                    expires_in := 60 * 24 * 7 * 60 }
              else
                .error ⟨401, "User not found or inactive"⟩

/-!
`main_simple.py` `admin_update_user_roles`: the admin endpoint that
validates an (app, role) assignment request against the fixed
`valid_roles` table. The JSON body is a dict read with `.get`, so each
field is optional; Python truthiness makes the empty string count as
missing. The endpoint responses are returned as structured data; in the
source they are dicts, and the invalid-role error dict interpolates
`valid_roles[app]`, which raises `KeyError` when `app` is not a key of
the table.
-/

/-- The request body fields read by `admin_update_user_roles`. -/
structure RoleUpdateRequest where
  email : Option String
  app : Option String
  role : Option String
  deriving DecidableEq, Repr

/-- The response dicts `admin_update_user_roles` can return. -/
inductive RolesResponse where
  | unauthorized
  | missingFields
  | invalidRole (role : String) (app : String) (valid : List String)
  | success (email : String) (app : String) (role : String) (updated_by : String)
  deriving DecidableEq, Repr

/-- Python truthiness of an optional string: `None` and the empty string
are falsy. -/
def strFalsy : Option String → Bool
  | none => true
  | some s => s = ""

/-- The fixed `valid_roles` table of `admin_update_user_roles`. -/
def valid_roles : List (String × List String) :=
  [ ("arc", ["owner", "reviewer", "admin"])
  , ("qr", ["admin", "scanner", "owner", "guest"]) ]

/-- `main_simple.py` `admin_update_user_roles`. No store write occurs on
any path: the success branch is an explicit placeholder. -/
def admin_update_user_roles (role_data : RoleUpdateRequest)
    (x_user_email : Option String) : Except PyError RolesResponse :=
  let user_email := match x_user_email with
    | some e => if e = "" then "user@example.com" else e
    | none => "user@example.com"
  if user_email ≠ "jacob@reider.us" then
    .ok .unauthorized
  else if strFalsy role_data.email ∨ strFalsy role_data.app ∨ strFalsy role_data.role then
    .ok .missingFields
  else
    let app := role_data.app.getD ""
    let role := role_data.role.getD ""
    let email := role_data.email.getD ""
    match (valid_roles.find? (fun kv => kv.1 = app)).map (fun kv => kv.2) with
    | none =>
        -- the error dict interpolates valid_roles[app]
        .error (.keyError app)
    | some roles =>
        if role ∉ roles then
          .ok (.invalidRole role app roles)
        else
          .ok (.success email app role user_email)

end MVAuth

section examples
open MVAuth

example :
    (CommunityUser.mk 1 "c" "e" "f" none none .SUPER_ADMIN true none []).get_permissions_for_service "arc"
      = .ok ["access", "admin", "manage_users", "view_logs", "super_admin"] := by decide

example :
    (CommunityUser.mk 1 "c" "e" "f" none none .HOMEOWNER true none []).get_permissions_for_service "arc"
      = .error (.attributeError "ARC_ADMIN") := by decide

example :
    (CommunityUser.mk 1 "c" "e" "f" none none .STAFF true none []).get_permissions_for_service "qr_gate"
      = .error (.attributeError "QR_ADMIN") := by decide

example :
    (CommunityUser.mk 1 "c" "e" "f" none none .RESIDENT true none []).get_permissions_for_service "billing"
      = .ok ["access", "user"] := by decide

example :
    (CommunityUser.mk 1 "c" "e" "f" none none .USER true none []).get_permissions_for_service "billing"
      = .ok ["access"] := by decide

example :
    JWTService.validate_token ⟨"k", "HS256", 10080, []⟩
      (JWTService.create_refresh_token ⟨"k", "HS256", 10080, []⟩ 7 0) 0
      = .ok [ ("user_id", .i 7), ("type", .s "refresh"), ("iat", .i 0)
            , ("exp", .i 2592000), ("iss", .s "community-auth-service") ] := by decide

example :
    JWTService.validate_refresh_token ⟨"k", "HS256", 10080, []⟩
      (JWTService.create_community_token ⟨"k", "HS256", 10080, []⟩
        (CommunityUser.mk 1 "c" "e" "f" none none .USER true none []).to_dict 0) 0
      = .error (.py (.attributeError "InvalidTokenError")) := by decide

example :
    admin_update_user_roles ⟨some "a@b.c", some "qr", some "superuser"⟩ (some "jacob@reider.us")
      = .ok (.invalidRole "superuser" "qr" ["admin", "scanner", "owner", "guest"]) := by decide

example :
    admin_update_user_roles ⟨some "a@b.c", some "billing", some "admin"⟩ (some "jacob@reider.us")
      = .error (.keyError "billing") := by decide

example :
    refresh_token_route ⟨"k", "HS256", 10080, []⟩
      [CommunityUser.mk 7 "c" "e" "f" none none .USER false none []]
      (JWTService.create_refresh_token ⟨"k", "HS256", 10080, []⟩ 7 0) 5
      = .error ⟨401, "User not found or inactive"⟩ := by decide

example (st : Settings) (d : UserDict) (now : Int) :
    lookupClaim (JWTService.access_payload st d now) "exp"
      = some (.i (now + st.jwt_expire_minutes * 60)) := rfl

example (st : Settings) (d : UserDict) (now : Int) :
    lookupClaim (JWTService.access_payload st d now) "type"
      = some (.s "community_access") := rfl

example (uid now : Int) :
    lookupClaim (JWTService.refresh_payload uid now) "exp"
      = some (.i (now + 30 * 86400)) := rfl

example (uid now : Int) :
    lookupClaim (JWTService.refresh_payload uid now) "user_id"
      = some (.i uid) := rfl

end examples

namespace MVAuth

/-! ### Helper lemmas -/

/-- Permission resolution reads only the `role` field of the user row:
two rows with equal roles resolve identically for every service. -/
lemma get_permissions_congr (u1 u2 : CommunityUser) (s : String)
    (h : u1.role = u2.role) :
    u1.get_permissions_for_service s = u2.get_permissions_for_service s := by
  simp only [CommunityUser.get_permissions_for_service,
    CommunityUser.get_arc_permissions, CommunityUser.get_qr_permissions,
    CommunityUser.get_community_permissions, CommunityUser.get_default_permissions, h]

/-- A STAFF row and a USER row resolve identically for every service
(on the arc and qr_gate branches both raise the same AttributeError; on
the other branches both take the generic else branch). -/
lemma resolve_staff_eq_user_concrete (s : String) :
    (CommunityUser.mk 0 "" "" "" none none .STAFF true none []).get_permissions_for_service s
      = (CommunityUser.mk 0 "" "" "" none none .USER true none []).get_permissions_for_service s := by
  by_cases ha : s = "arc"
  · subst ha; decide
  · by_cases hq : s = "qr_gate"
    · subst hq; decide
    · by_cases hc : s = "community_auth"
      · subst hc; decide
      · simp [CommunityUser.get_permissions_for_service,
          CommunityUser.get_default_permissions, ha, hq, hc]

/-- A RESIDENT row and a HOMEOWNER row resolve identically for every
service: the two roles are listed together in every branch that is
reachable, and the arc and qr_gate branches raise the same error for
both. -/
lemma resolve_resident_eq_homeowner_concrete (s : String) :
    (CommunityUser.mk 0 "" "" "" none none .RESIDENT true none []).get_permissions_for_service s
      = (CommunityUser.mk 0 "" "" "" none none .HOMEOWNER true none []).get_permissions_for_service s := by
  by_cases ha : s = "arc"
  · subst ha; decide
  · by_cases hq : s = "qr_gate"
    · subst hq; decide
    · by_cases hc : s = "community_auth"
      · subst hc; decide
      · simp [CommunityUser.get_permissions_for_service,
          CommunityUser.get_default_permissions, ha, hq, hc]

/-! ### C1 -/

/-- C1: for every user whose global role is SUPER_ADMIN or the legacy
alias ADMIN, and for every service name, `get_permissions_for_service`
returns exactly the fixed list access, admin, manage_users, view_logs,
super_admin, with no per-service additions or removals; the app-role
rows of the user are never consulted (the statement quantifies over the
whole user row, app-role map included). -/
theorem super_admin_fixed_permissions (u : CommunityUser) (s : String)
    (h : u.role = .SUPER_ADMIN ∨ u.role = .ADMIN) :
    u.get_permissions_for_service s
      = .ok ["access", "admin", "manage_users", "view_logs", "super_admin"] := by
  unfold CommunityUser.get_permissions_for_service
  rw [if_pos h]

/-- Witness for C1: a concrete super-admin user with a nonempty app-role
map, resolved for the qr_gate service. -/
theorem super_admin_fixed_permissions_witness :
    ((CommunityUser.mk 1 "ck_1" "a@x.org" "A" none none .SUPER_ADMIN true none
        [⟨1, 1, "arc", "reviewer"⟩]).role = UserRole.SUPER_ADMIN
      ∨ (CommunityUser.mk 1 "ck_1" "a@x.org" "A" none none .SUPER_ADMIN true none
        [⟨1, 1, "arc", "reviewer"⟩]).role = UserRole.ADMIN)
    ∧ (CommunityUser.mk 1 "ck_1" "a@x.org" "A" none none .SUPER_ADMIN true none
        [⟨1, 1, "arc", "reviewer"⟩]).get_permissions_for_service "qr_gate"
      = .ok ["access", "admin", "manage_users", "view_logs", "super_admin"] :=
  ⟨Or.inl rfl,
    super_admin_fixed_permissions
      (CommunityUser.mk 1 "ck_1" "a@x.org" "A" none none .SUPER_ADMIN true none
        [⟨1, 1, "arc", "reviewer"⟩]) "qr_gate" (Or.inl rfl)⟩

/-! ### C3 -/

/-- C3: the claim states that RESIDENT and HOMEOWNER, and STAFF and
QR_SCANNER, receive identical permission sets on all four service
branches. The code cannot return any set at all on the arc and qr_gate
branches: `_get_arc_permissions` compares the role against
`UserRole.ARC_ADMIN` and `_get_qr_permissions` against
`UserRole.QR_ADMIN`, names that exist only on the `AppRole` enum, so for
every non-super-admin role both branches raise `AttributeError` instead
of returning a permission list (and QR_SCANNER is not a value of the
global-role enum at all). This theorem evaluates the code at the failing
inputs. -/
theorem arc_qr_permission_branches_raise :
    (CommunityUser.mk 1 "ck_s" "s@x.org" "S" none none .STAFF true none
        []).get_permissions_for_service "qr_gate"
      = .error (.attributeError "QR_ADMIN")
    ∧ (CommunityUser.mk 2 "ck_h" "h@x.org" "H" none none .HOMEOWNER true none
        []).get_permissions_for_service "arc"
      = .error (.attributeError "ARC_ADMIN")
    ∧ (CommunityUser.mk 3 "ck_r" "r@x.org" "R" none none .RESIDENT true none
        []).get_permissions_for_service "arc"
      = .error (.attributeError "ARC_ADMIN") := by decide

/-! ### C4 -/

/-- C4 counterexample: a RESIDENT user does not resolve like a USER:
on the unknown-service default branch RESIDENT is grouped with
HOMEOWNER and receives access and user, while USER receives only
access. -/
theorem resident_not_equivalent_to_user :
    (CommunityUser.mk 1 "ck_r" "r@x.org" "R" none none .RESIDENT true none
        []).get_permissions_for_service "billing" = .ok ["access", "user"]
    ∧ (CommunityUser.mk 1 "ck_r" "r@x.org" "R" none none .USER true none
        []).get_permissions_for_service "billing" = .ok ["access"]
    ∧ (CommunityUser.mk 1 "ck_r" "r@x.org" "R" none none .RESIDENT true none
        []).get_permissions_for_service "billing"
      ≠ (CommunityUser.mk 1 "ck_r" "r@x.org" "R" none none .USER true none
        []).get_permissions_for_service "billing" := by decide

/-- C4 (amended): STAFF resolves identically to USER for every service
name, and RESIDENT resolves identically to HOMEOWNER — not to USER —
for every service name (on the arc and qr_gate branches each pair
raises the same AttributeError, and on the remaining branches each pair
returns the same list). -/
theorem legacy_alias_resolution (u1 u2 u3 u4 : CommunityUser) (s : String)
    (h1 : u1.role = .STAFF) (h2 : u2.role = .USER)
    (h3 : u3.role = .RESIDENT) (h4 : u4.role = .HOMEOWNER) :
    u1.get_permissions_for_service s = u2.get_permissions_for_service s
    ∧ u3.get_permissions_for_service s = u4.get_permissions_for_service s := by
  constructor
  · exact (get_permissions_congr u1 _ s (by rw [h1])).trans
      ((resolve_staff_eq_user_concrete s).trans
        (get_permissions_congr _ u2 s (by rw [h2])))
  · exact (get_permissions_congr u3 _ s (by rw [h3])).trans
      ((resolve_resident_eq_homeowner_concrete s).trans
        (get_permissions_congr _ u4 s (by rw [h4])))

/-- Witness for C4 (amended) at four concrete users and an unknown
service name. -/
theorem legacy_alias_resolution_witness :
    (CommunityUser.mk 1 "c1" "s@x" "S" none none .STAFF true none []).role = UserRole.STAFF
    ∧ (CommunityUser.mk 2 "c2" "u@x" "U" none none .USER true none []).role = UserRole.USER
    ∧ (CommunityUser.mk 3 "c3" "r@x" "R" none none .RESIDENT true none []).role = UserRole.RESIDENT
    ∧ (CommunityUser.mk 4 "c4" "h@x" "H" none none .HOMEOWNER true none []).role = UserRole.HOMEOWNER
    ∧ ((CommunityUser.mk 1 "c1" "s@x" "S" none none .STAFF true none
          []).get_permissions_for_service "billing"
        = (CommunityUser.mk 2 "c2" "u@x" "U" none none .USER true none
          []).get_permissions_for_service "billing"
      ∧ (CommunityUser.mk 3 "c3" "r@x" "R" none none .RESIDENT true none
          []).get_permissions_for_service "billing"
        = (CommunityUser.mk 4 "c4" "h@x" "H" none none .HOMEOWNER true none
          []).get_permissions_for_service "billing") :=
  ⟨rfl, rfl, rfl, rfl,
    legacy_alias_resolution
      (CommunityUser.mk 1 "c1" "s@x" "S" none none .STAFF true none [])
      (CommunityUser.mk 2 "c2" "u@x" "U" none none .USER true none [])
      (CommunityUser.mk 3 "c3" "r@x" "R" none none .RESIDENT true none [])
      (CommunityUser.mk 4 "c4" "h@x" "H" none none .HOMEOWNER true none [])
      "billing" rfl rfl rfl rfl⟩

/-! ### C10 -/

/-- C10: permission resolution depends only on the global role field and
the service name; the app_roles relationship is never read. Any two user
rows with equal roles — whatever their app-role maps, profile fields or
flags — resolve to identical outcomes for every service name. -/
theorem permissions_depend_only_on_role (u1 u2 : CommunityUser) (s : String)
    (h : u1.role = u2.role) :
    u1.get_permissions_for_service s = u2.get_permissions_for_service s :=
  get_permissions_congr u1 u2 s h

/-- Witness for C10: two HOMEOWNER rows, one with a nonempty app-role
map and one with none, resolved for community_auth. -/
theorem permissions_depend_only_on_role_witness :
    (CommunityUser.mk 1 "c1" "a@x" "A" none none .HOMEOWNER true none
        [⟨1, 1, "arc", "admin"⟩, ⟨2, 1, "qr", "scanner"⟩]).role
      = (CommunityUser.mk 2 "c2" "b@x" "B" none none .HOMEOWNER true none []).role
    ∧ (CommunityUser.mk 1 "c1" "a@x" "A" none none .HOMEOWNER true none
        [⟨1, 1, "arc", "admin"⟩, ⟨2, 1, "qr", "scanner"⟩]).get_permissions_for_service "community_auth"
      = (CommunityUser.mk 2 "c2" "b@x" "B" none none .HOMEOWNER true none
        []).get_permissions_for_service "community_auth" :=
  ⟨rfl,
    permissions_depend_only_on_role
      (CommunityUser.mk 1 "c1" "a@x" "A" none none .HOMEOWNER true none
        [⟨1, 1, "arc", "admin"⟩, ⟨2, 1, "qr", "scanner"⟩])
      (CommunityUser.mk 2 "c2" "b@x" "B" none none .HOMEOWNER true none [])
      "community_auth" rfl⟩

/-! ### Token helper lemmas -/

/-- Decoding succeeds when the key and algorithm match and the integer
`exp` claim is not in the past. -/
lemma jwt_decode_ok (tok : Token) (key : String) (algs : List String)
    (now e : Int) (hkey : tok.key = key) (halg : tok.alg ∈ algs)
    (hexp : lookupClaim tok.payload "exp" = some (.i e)) (h : ¬ e < now) :
    jwt_decode tok key algs now = .ok tok.payload := by
  unfold jwt_decode
  rw [if_pos ⟨hkey, halg⟩, hexp]
  show (if e < now then (Except.error JwtError.expiredSignature) else Except.ok tok.payload)
      = Except.ok tok.payload
  rw [if_neg h]

/-! ### C2 -/

/-- C2 counterexample: a correctly signed, unexpired refresh token
presented to `validate_token` is accepted and its claims are returned:
access-token validation performs no type-discriminator check, so the
wrong-kind presentation silently succeeds instead of failing. -/
theorem validate_token_accepts_refresh_token :
    JWTService.validate_token ⟨"k", "HS256", 10080, []⟩
      (JWTService.create_refresh_token ⟨"k", "HS256", 10080, []⟩ 7 0) 0
      = .ok [ ("user_id", .i 7), ("type", .s "refresh"), ("iat", .i 0)
            , ("exp", .i 2592000), ("iss", .s "community-auth-service") ] := by decide

/-- C2 (amended): `validate_refresh_token` never returns claims for a
token whose type claim is not the string refresh — in particular it
rejects a structurally valid, correctly signed and unexpired access
token — but the rejection is not the clean 401 WrongType response the
source writes: the wrong-type HTTPException is clobbered while the
clause `except jwt.InvalidTokenError` is checked (python-jose defines
no such name), so the failure escapes as `AttributeError` and surfaces
as a 500 at the routes. `validate_token`, for its part, performs no
type check at all, so a correctly signed, unexpired refresh token
presented to it silently succeeds and returns the refresh claims. -/
theorem refresh_type_discrimination (st : Settings) (d : UserDict)
    (uid now now2 : Int)
    (hacc : ¬ now + st.jwt_expire_minutes * 60 < now2)
    (href : ¬ now + 30 * 86400 < now2) :
    JWTService.validate_refresh_token st (JWTService.create_community_token st d now) now2
      = .error (.py (.attributeError "InvalidTokenError"))
    ∧ JWTService.validate_token st (JWTService.create_refresh_token st uid now) now2
      = .ok (JWTService.refresh_payload uid now)
    ∧ (∀ tok p, JWTService.validate_refresh_token st tok now2 = .ok p →
        lookupClaim p "type" = some (.s "refresh")) := by
  refine ⟨?_, ?_, ?_⟩
  · have hdec : jwt_decode (JWTService.create_community_token st d now)
        st.jwt_secret_key [st.jwt_algorithm] now2
        = .ok (JWTService.access_payload st d now) :=
      jwt_decode_ok _ _ _ _ _ rfl (List.mem_singleton.mpr rfl) rfl hacc
    unfold JWTService.validate_refresh_token
    rw [hdec]
    show (if lookupClaim (JWTService.access_payload st d now) "type"
            = some (.s "refresh")
          then Except.ok (JWTService.access_payload st d now)
          else Except.error (PyException.py (.attributeError "InvalidTokenError")))
        = Except.error (PyException.py (.attributeError "InvalidTokenError"))
    rw [if_neg (by simp [show lookupClaim (JWTService.access_payload st d now) "type"
        = some (.s "community_access") from rfl])]
  · have hdec : jwt_decode (JWTService.create_refresh_token st uid now)
        st.jwt_secret_key [st.jwt_algorithm] now2
        = .ok (JWTService.refresh_payload uid now) :=
      jwt_decode_ok _ _ _ _ _ rfl (List.mem_singleton.mpr rfl) rfl href
    unfold JWTService.validate_token
    rw [hdec]
  · intro tok p hp
    unfold JWTService.validate_refresh_token at hp
    cases hdec : jwt_decode tok st.jwt_secret_key [st.jwt_algorithm] now2 with
    | ok payload =>
        rw [hdec] at hp
        by_cases ht : lookupClaim payload "type" = some (.s "refresh")
        · simp only [if_pos ht, Except.ok.injEq] at hp
          rw [← hp]
          exact ht
        · simp only [if_neg ht] at hp
          exact absurd hp (by simp)
    | error e =>
        rw [hdec] at hp
        cases e <;> simp at hp

/-- Witness for C2 (amended) at a concrete configuration, user snapshot
and clock. -/
theorem refresh_type_discrimination_witness :
    (¬ (0 : Int) + 10080 * 60 < 3) ∧ (¬ (0 : Int) + 30 * 86400 < 3)
    ∧ (JWTService.validate_refresh_token ⟨"k", "HS256", 10080, []⟩
        (JWTService.create_community_token ⟨"k", "HS256", 10080, []⟩
          ⟨1, "ck_1", "a@x", "A", none, none, "homeowner", true, []⟩ 0) 3
        = .error (.py (.attributeError "InvalidTokenError"))
      ∧ JWTService.validate_token ⟨"k", "HS256", 10080, []⟩
          (JWTService.create_refresh_token ⟨"k", "HS256", 10080, []⟩ 7 0) 3
        = .ok (JWTService.refresh_payload 7 0)
      ∧ (∀ tok p, JWTService.validate_refresh_token ⟨"k", "HS256", 10080, []⟩ tok 3 = .ok p →
          lookupClaim p "type" = some (.s "refresh"))) :=
  ⟨by decide, by decide,
    refresh_type_discrimination ⟨"k", "HS256", 10080, []⟩
      ⟨1, "ck_1", "a@x", "A", none, none, "homeowner", true, []⟩ 7 0 3
      (by decide) (by decide)⟩

/-! ### C9 -/

/-- C9: round trip — validating the access token issued for a user
snapshot, at any clock that has not passed the exp written into the
token, succeeds and returns the full claim payload, which carries every
snapshot field (user_id, clerk_user_id, email, full_name, role value,
unit_number, is_active) with its original value. -/
theorem access_token_round_trip (st : Settings) (u : CommunityUser)
    (now now2 : Int) (h : ¬ now + st.jwt_expire_minutes * 60 < now2) :
    JWTService.validate_token st
        (JWTService.create_community_token st u.to_dict now) now2
      = .ok [ ("user_id", .i u.id)
            , ("clerk_user_id", .s u.clerk_user_id)
            , ("email", .s u.email)
            , ("full_name", .s u.full_name)
            , ("role", .s u.role.value)
            , ("unit_number", optClaim u.unit_number)
            , ("is_active", .b u.is_active)
            , ("iat", .i now)
            , ("exp", .i (now + st.jwt_expire_minutes * 60))
            , ("iss", .s "community-auth-service")
            , ("type", .s "community_access") ] := by
  have hdec : jwt_decode (JWTService.create_community_token st u.to_dict now)
      st.jwt_secret_key [st.jwt_algorithm] now2
      = .ok (JWTService.access_payload st u.to_dict now) :=
    jwt_decode_ok _ _ _ _ _ rfl (List.mem_singleton.mpr rfl) rfl h
  unfold JWTService.validate_token
  rw [hdec]
  rfl

/-- Witness for C9 at a concrete user snapshot, configuration and
clock. -/
theorem access_token_round_trip_witness :
    (¬ (0 : Int) + 10080 * 60 < 99)
    ∧ JWTService.validate_token ⟨"k", "HS256", 10080, []⟩
        (JWTService.create_community_token ⟨"k", "HS256", 10080, []⟩
          (CommunityUser.mk 1 "ck_1" "a@x" "A" (some "12B") none .HOMEOWNER true none
            []).to_dict 0) 99
      = .ok [ ("user_id", .i 1)
            , ("clerk_user_id", .s "ck_1")
            , ("email", .s "a@x")
            , ("full_name", .s "A")
            , ("role", .s (UserRole.HOMEOWNER).value)
            , ("unit_number", optClaim (some "12B"))
            , ("is_active", .b true)
            , ("iat", .i 0)
            , ("exp", .i (0 + 10080 * 60))
            , ("iss", .s "community-auth-service")
            , ("type", .s "community_access") ] :=
  ⟨by decide,
    access_token_round_trip ⟨"k", "HS256", 10080, []⟩
      (CommunityUser.mk 1 "ck_1" "a@x" "A" (some "12B") none .HOMEOWNER true none [])
      0 99 (by decide)⟩

/-! ### C5 -/

/-- C5: in the refresh flow, once the refresh token validates and
carries an integer user_id claim, the live user is looked up by that id;
if no user is found, or the found user is inactive, the flow fails with
the 401 response and no token pair is produced, and only when an active
user is found does the route return a response carrying both a freshly
issued access token and a freshly issued refresh token. -/
theorem refresh_flow_gates_on_active_user (st : Settings)
    (db : List CommunityUser) (tok : Token) (now : Int)
    (payload : List (String × CVal)) (uid : Int)
    (hval : JWTService.validate_refresh_token st tok now = .ok payload)
    (hclaim : lookupClaim payload "user_id" = some (.i uid)) :
    ((UserRepository.get_by_id db uid = none
        ∨ ∃ u, UserRepository.get_by_id db uid = some u ∧ u.is_active = false) →
      refresh_token_route st db tok now = .error ⟨401, "User not found or inactive"⟩)
    ∧ (∀ u, UserRepository.get_by_id db uid = some u → u.is_active = true →
      refresh_token_route st db tok now = .ok
        { access_token := JWTService.create_community_token st u.to_dict now
          refresh_token := JWTService.create_refresh_token st u.id now
          token_type := "bearer"
          user := u.to_dict
          expires_in := 60 * 24 * 7 * 60 }) := by
  constructor
  · intro hmiss
    rcases hmiss with hnone | ⟨u, hu, hinact⟩
    · simp only [refresh_token_route, hval, hclaim, hnone]
    · simp only [refresh_token_route, hval, hclaim, hu, hinact]
      simp
  · intro u hu hact
    simp only [refresh_token_route, hval, hclaim, hu, hact]
    simp

/-- Witness for C5: a concrete refresh token for an inactive user is
rejected with the 401 response. -/
theorem refresh_flow_gates_on_active_user_witness :
    refresh_token_route ⟨"k", "HS256", 10080, []⟩
      [CommunityUser.mk 7 "ck_7" "i@x" "I" none none .HOMEOWNER false none []]
      (JWTService.create_refresh_token ⟨"k", "HS256", 10080, []⟩ 7 0) 5
      = .error ⟨401, "User not found or inactive"⟩ :=
  (refresh_flow_gates_on_active_user ⟨"k", "HS256", 10080, []⟩
    [CommunityUser.mk 7 "ck_7" "i@x" "I" none none .HOMEOWNER false none []]
    (JWTService.create_refresh_token ⟨"k", "HS256", 10080, []⟩ 7 0) 5
    (JWTService.refresh_payload 7 0) 7 (by decide) (by decide)).1
    (Or.inr ⟨CommunityUser.mk 7 "ck_7" "i@x" "I" none none .HOMEOWNER false none [],
      by decide, rfl⟩)

/-! ### Login helper lemmas -/

/-- Mapping a row transformation that preserves `clerk_user_id` over the
table commutes with lookup by clerk id. -/
lemma find?_clerk_map (f : CommunityUser → CommunityUser)
    (hf : ∀ u, (f u).clerk_user_id = u.clerk_user_id)
    (db : List CommunityUser) (cid : String) :
    (db.map f).find? (fun u => u.clerk_user_id = cid)
      = (db.find? (fun u => u.clerk_user_id = cid)).map f := by
  rw [List.find?_map]
  have hp : ((fun u : CommunityUser => decide (u.clerk_user_id = cid)) ∘ f)
      = (fun u : CommunityUser => decide (u.clerk_user_id = cid)) := by
    funext u
    simp only [Function.comp]
    rw [hf u]
  rw [hp]

/-! ### C6 -/

/-- C6: when login finds no local user for the external subject id, the
user it creates has role SUPER_ADMIN exactly when the verified email is
a member of the configured admin allow-list (exact string membership,
hence case-sensitive), and role HOMEOWNER otherwise; no other initial
role is possible on this path. -/
theorem login_creates_user_with_allowlist_role (st : Settings)
    (db : List CommunityUser) (cd : ClerkUserData) (now : Int)
    (h : UserRepository.get_by_clerk_id db cd.clerk_user_id = none) :
    ∃ u, UserRepository.get_by_clerk_id (login_with_clerk st db cd now).1
        cd.clerk_user_id = some u
      ∧ u.role = (if cd.email ∈ st.admin_emails then UserRole.SUPER_ADMIN
          else UserRole.HOMEOWNER) := by
  simp only [UserRepository.get_by_clerk_id] at h
  simp only [login_with_clerk, UserRepository.get_by_clerk_id, h,
    UserRepository.create, UserRepository.update_last_login]
  rw [find?_clerk_map _ (fun u => by split <;> rfl),
    List.find?_append, h]
  simp

/-- Witness for C6: a fresh external identity whose email is on the
allow-list is created as SUPER_ADMIN. -/
theorem login_creates_user_with_allowlist_role_witness :
    UserRepository.get_by_clerk_id ([] : List CommunityUser) "ext_1" = none
    ∧ ∃ u, UserRepository.get_by_clerk_id
        (login_with_clerk ⟨"k", "HS256", 10080, ["admin@example.org"]⟩ []
          ⟨"ext_1", "admin@example.org", "A Admin", none⟩ 0).1 "ext_1" = some u
      ∧ u.role = (if "admin@example.org" ∈ ["admin@example.org"] then
          UserRole.SUPER_ADMIN else UserRole.HOMEOWNER) :=
  ⟨by decide,
    login_creates_user_with_allowlist_role ⟨"k", "HS256", 10080, ["admin@example.org"]⟩
      [] ⟨"ext_1", "admin@example.org", "A Admin", none⟩ 0 (by decide)⟩

/-! ### C7 -/

/-- C7: when login finds an existing local user for the external subject
id, the stored row afterwards carries the latest profile fields (email,
full name, phone) from the external identity, while its id, global role,
app-role assignments and unit label are unchanged — for every input
identity. -/
theorem login_updates_profile_only (st : Settings) (db : List CommunityUser)
    (cd : ClerkUserData) (now : Int) (u0 : CommunityUser)
    (h : UserRepository.get_by_clerk_id db cd.clerk_user_id = some u0) :
    ∃ u, UserRepository.get_by_clerk_id (login_with_clerk st db cd now).1
        cd.clerk_user_id = some u
      ∧ u.id = u0.id ∧ u.role = u0.role ∧ u.app_roles = u0.app_roles
      ∧ u.unit_number = u0.unit_number ∧ u.is_active = u0.is_active
      ∧ u.email = cd.email ∧ u.full_name = cd.full_name
      ∧ u.phone_number = cd.phone_number := by
  have hcid : u0.clerk_user_id = cd.clerk_user_id := by
    have := List.find?_some h
    simpa using this
  simp only [UserRepository.get_by_clerk_id] at h
  simp only [login_with_clerk, UserRepository.get_by_clerk_id, h,
    UserRepository.update_by_clerk_id, UserRepository.update_last_login]
  rw [find?_clerk_map _ (fun u => by split <;> rfl) db cd.clerk_user_id, h]
  simp only [Option.map_some']
  rw [find?_clerk_map _ (fun u => by split <;> rfl),
    find?_clerk_map _ (fun u => by split <;> rfl) db cd.clerk_user_id, h]
  simp only [Option.map_some']
  simp only [if_pos hcid]
  exact ⟨_, rfl, rfl, rfl, rfl, rfl, rfl, rfl, rfl, rfl⟩

/-- Witness for C7: an existing HOMEOWNER with an app role keeps id,
role, app roles and unit while email, name and phone are refreshed. -/
theorem login_updates_profile_only_witness :
    UserRepository.get_by_clerk_id
      [CommunityUser.mk 4 "ext_4" "old@x" "Old Name" (some "7A") none .HOMEOWNER true none
        [⟨1, 4, "arc", "reviewer"⟩]] "ext_4"
      = some (CommunityUser.mk 4 "ext_4" "old@x" "Old Name" (some "7A") none .HOMEOWNER true none
        [⟨1, 4, "arc", "reviewer"⟩])
    ∧ ∃ u, UserRepository.get_by_clerk_id
        (login_with_clerk ⟨"k", "HS256", 10080, []⟩
          [CommunityUser.mk 4 "ext_4" "old@x" "Old Name" (some "7A") none .HOMEOWNER true none
            [⟨1, 4, "arc", "reviewer"⟩]]
          ⟨"ext_4", "new@x", "New Name", some "555"⟩ 9).1 "ext_4" = some u
      ∧ u.id = 4 ∧ u.role = UserRole.HOMEOWNER
      ∧ u.app_roles = [⟨1, 4, "arc", "reviewer"⟩]
      ∧ u.unit_number = some "7A" ∧ u.is_active = true
      ∧ u.email = "new@x" ∧ u.full_name = "New Name"
      ∧ u.phone_number = some "555" :=
  ⟨by decide,
    login_updates_profile_only ⟨"k", "HS256", 10080, []⟩
      [CommunityUser.mk 4 "ext_4" "old@x" "Old Name" (some "7A") none .HOMEOWNER true none
        [⟨1, 4, "arc", "reviewer"⟩]]
      ⟨"ext_4", "new@x", "New Name", some "555"⟩ 9
      (CommunityUser.mk 4 "ext_4" "old@x" "Old Name" (some "7A") none .HOMEOWNER true none
        [⟨1, 4, "arc", "reviewer"⟩]) (by decide)⟩

/-! ### C8 -/

/-- C8 counterexample: an authorized role-assignment request whose
(app, role) pair is outside the validity table because the app itself is
unrecognized does not fail with the enumerating Invalid error: building
that error message subscripts the table with the unknown app and raises
`KeyError`, which surfaces as an unhandled 500, not as a response
listing valid roles. -/
theorem role_update_unknown_app_raises :
    admin_update_user_roles ⟨some "a@b.c", some "billing", some "admin"⟩
      (some "jacob@reider.us") = .error (.keyError "billing") := by decide

/-- C8 (amended): an authorized role-assignment request naming a
recognized app (a key of the validity table) with a role outside that
app's valid set fails with the Invalid response that enumerates the
valid roles for that app; nothing is stored on any path of this
endpoint (the success branch itself is an explicit placeholder). For an
unrecognized app the endpoint instead raises KeyError while formatting
the error message. -/
theorem role_update_rejects_invalid_role (email app role : String)
    (roles : List String)
    (he : email ≠ "") (ha : app ≠ "") (hr : role ≠ "")
    (htab : (valid_roles.find? (fun kv => kv.1 = app)).map (fun kv => kv.2)
      = some roles)
    (hnot : role ∉ roles) :
    admin_update_user_roles ⟨some email, some app, some role⟩
      (some "jacob@reider.us") = .ok (.invalidRole role app roles) := by
  simp only [admin_update_user_roles, strFalsy, htab]
  simp [he, ha, hr, hnot, htab]

/-- Witness for C8 (amended): the spec scenario app qr, role superuser
fails listing the four valid qr roles. -/
theorem role_update_rejects_invalid_role_witness :
    ("a@b.c" ≠ "") ∧ ("qr" ≠ "") ∧ ("superuser" ≠ "")
    ∧ (valid_roles.find? (fun kv => kv.1 = "qr")).map (fun kv => kv.2)
      = some ["admin", "scanner", "owner", "guest"]
    ∧ "superuser" ∉ ["admin", "scanner", "owner", "guest"]
    ∧ admin_update_user_roles ⟨some "a@b.c", some "qr", some "superuser"⟩
        (some "jacob@reider.us")
      = .ok (.invalidRole "superuser" "qr" ["admin", "scanner", "owner", "guest"]) :=
  ⟨by decide, by decide, by decide, by decide, by decide,
    role_update_rejects_invalid_role "a@b.c" "qr" "superuser"
      ["admin", "scanner", "owner", "guest"]
      (by decide) (by decide) (by decide) (by decide) (by decide)⟩

end MVAuth
